import Mathlib

/-!
Shallow embedding of the LeaseUp property-management application
(`src/app.py`) and proofs about its booking workflow, dashboard
aggregates, session handling and authentication.

Modelling conventions:
* Database rows are Lean structures; a table is a `List` of rows kept in
  insertion/primary-key order (the order in which `query.all()` iterates).
* Auto-increment primary keys are modelled by `freshId` (max existing + 1).
* Mutating an ORM object fetched by primary key is modelled by
  `replaceFirst` on the list, which rewrites the first row matching the key.
* Monetary amounts (`Float` columns) are modelled as `Int`: every amount the
  verified claims touch is integral, and the arithmetic involved is exact.
* Timestamp columns (`created_at`, payment `date`) are omitted: no verified
  claim observes them.
* Python `int(...)` applied to a string is modelled by `pyInt?` (whitespace
  stripping, optional sign, digits with single underscores between digits);
  `str.split('_', 1)` preceded by an `'_' in s` test is modelled by
  `splitOnFirstUnderscore`; `datetime.fromisoformat(s).date()` is modelled
  by `fromisoformatDate?`, covering the calendar-date (`YYYY-MM-DD`) form
  of the ISO syntax, which is the form the application's claims concern.
* An unhandled Python exception inside a handler aborts the request before
  `db.session.commit()`, so the database is left unchanged; it is modelled
  by the `Resp.serverError` response paired with the unchanged database.
-/

namespace LeaseUp

/-- Rewrite the first element of a list satisfying `p` using `f`;
models in-place mutation of the (unique) row fetched by primary key. -/
def replaceFirst (p : α → Bool) (f : α → α) : List α → List α
  | [] => []
  | x :: xs => if p x then f x :: xs else x :: replaceFirst p f xs

/-- Fresh auto-increment primary key: one more than the largest id in use. -/
def freshId (ids : List Nat) : Nat := ids.foldr max 0 + 1

/-! ### Python string-to-int parsing (`int(s)`) and `split('_', 1)` -/

/-- Numeric value of a decimal digit character. -/
def digitVal (c : Char) : Nat := c.toNat - 48

/-- The decimal digit character for `d < 10`. -/
def digitChar (d : Nat) : Char := Char.ofNat (48 + d)

/-- Tail of Python unsigned-int parsing: digits with single underscores
allowed strictly between digits. `acc` is the value parsed so far. -/
def pyIntGo : List Char → Nat → Option Nat
  | [], acc => some acc
  | c :: rest, acc =>
    if c.isDigit then pyIntGo rest (acc * 10 + digitVal c)
    else if c = '_' then
      match rest with
      | [] => none
      | c2 :: rest2 =>
        if c2.isDigit then pyIntGo rest2 (acc * 10 + digitVal c2) else none
    else none

/-- Python unsigned-int parsing: at least one digit, which must come first. -/
def parseUDigits : List Char → Option Nat
  | [] => none
  | c :: rest => if c.isDigit then pyIntGo rest (digitVal c) else none

/-- Strip leading and trailing whitespace, as Python `int(s)` does. -/
def stripWs (cs : List Char) : List Char :=
  ((cs.dropWhile Char.isWhitespace).reverse.dropWhile Char.isWhitespace).reverse

/-- Python `int(s)` on a string: `some n` when the call succeeds with value
`n`, `none` when it raises `ValueError`. -/
def pyInt? (s : String) : Option Int :=
  match stripWs s.data with
  | [] => none
  | c :: rest =>
    if c = '+' then (parseUDigits rest).map (fun n => (n : Int))
    else if c = '-' then (parseUDigits rest).map (fun n => -(n : Int))
    else (parseUDigits (c :: rest)).map (fun n => (n : Int))

/-- Split a character list at its first underscore; `none` when the list
contains no underscore. -/
def splitU : List Char → Option (List Char × List Char)
  | [] => none
  | c :: rest =>
    if c = '_' then some ([], rest)
    else
      match splitU rest with
      | none => none
      | some (a, b) => some (c :: a, b)

/-- Python `'_' in s` followed by `s.split('_', 1)`. -/
def splitOnFirstUnderscore (s : String) : Option (String × String) :=
  (splitU s.data).map (fun ab => (String.mk ab.1, String.mk ab.2))

/-- Fuel-indexed helper for `natDecimal`; the fuel only enforces
structural termination and is immaterial once it exceeds the argument. -/
def natDecimalAux : Nat → Nat → List Char
  | 0, _ => []
  | fuel + 1, n =>
    if n < 10 then [digitChar n]
    else natDecimalAux fuel (n / 10) ++ [digitChar (n % 10)]

/-- Decimal rendering of a natural number, as Python string formatting
(`f'user_\x7bself.id\x7d'`) produces. -/
def natDecimal (n : Nat) : List Char := natDecimalAux (n + 1) n

/-! ### Calendar dates and `datetime.fromisoformat` -/

/-- A calendar date (year, month, day). -/
structure Date where
  year : Int
  month : Int
  day : Int
deriving DecidableEq, Repr

/-- Gregorian leap-year test. -/
def isLeapYear (y : Int) : Bool := (y % 4 = 0 && y % 100 != 0) || y % 400 = 0

/-- Number of days in a month. -/
def daysInMonth (y m : Int) : Int :=
  if m = 2 then (if isLeapYear y then 29 else 28)
  else if m = 4 || m = 6 || m = 9 || m = 11 then 30
  else 31

/-- Validity of a (year, month, day) triple, with Python's year range. -/
def validDate (y m d : Int) : Bool :=
  1 ≤ y && y ≤ 9999 && 1 ≤ m && m ≤ 12 && 1 ≤ d && d ≤ daysInMonth y m

/-- `datetime.fromisoformat(s).date()` on the calendar-date form
`YYYY-MM-DD` of the ISO syntax: `some` on success, `none` when the call
raises `ValueError`. -/
def fromisoformatDate? (s : String) : Option Date :=
  match s.data with
  | [y1, y2, y3, y4, h1, m1, m2, h2, d1, d2] =>
    if h1 = '-' && h2 = '-' && y1.isDigit && y2.isDigit && y3.isDigit &&
        y4.isDigit && m1.isDigit && m2.isDigit && d1.isDigit && d2.isDigit then
      let y : Int := ((digitVal y1 * 10 + digitVal y2) * 10 + digitVal y3) * 10 + digitVal y4
      let m : Int := digitVal m1 * 10 + digitVal m2
      let d : Int := digitVal d1 * 10 + digitVal d2
      if validDate y m d then some ⟨y, m, d⟩ else none
    else none
  | _ => none

/-! ### Data model (`db.Model` classes of `app.py`) -/

/-- Admin user account for property management. -/
structure User where
  id : Nat
  username : String
  password_hash : String
deriving DecidableEq, Repr

/-- Tenant account for apartment booking and lease management. -/
structure TenantUser where
  id : Nat
  username : String
  email : String
  password_hash : String
  phone : String
deriving DecidableEq, Repr

/-- Rental property (complex/building). -/
structure Property where
  id : Nat
  name : String
  address : String
deriving DecidableEq, Repr

/-- Individual apartment/room within a property; status `vacant` or
`occupied`. -/
structure Unit where
  id : Nat
  number : String
  status : String
  property_id : Nat
deriving DecidableEq, Repr

/-- Tenant record linked to active leases. -/
structure Tenant where
  id : Nat
  name : String
  phone : String
  email : String
deriving DecidableEq, Repr

/-- Lease agreement between a tenant and unit.  `monthly_rent` is a
nullable column, hence `Option Int`. -/
structure Lease where
  id : Nat
  unit_id : Nat
  tenant_id : Nat
  start_date : Option Date
  end_date : Option Date
  monthly_rent : Option Int
deriving DecidableEq, Repr

/-- Payment record for a lease. -/
structure Payment where
  id : Nat
  lease_id : Nat
  amount : Int
deriving DecidableEq, Repr

/-- Maintenance issue report for a unit. -/
structure MaintenanceRequest where
  id : Nat
  unit_id : Nat
  description : String
  status : String
deriving DecidableEq, Repr

/-- Booking request from a tenant (`LeaseRequest` in `app.py`);
status `pending`, `approved` or `rejected`. -/
structure LeaseRequest where
  id : Nat
  unit_id : Nat
  tenant_user_id : Nat
  start_date : Option Date
  end_date : Option Date
  notes : String
  status : String
deriving DecidableEq, Repr

/-- Emergency contact information per unit. -/
structure EmergencyContact where
  id : Nat
  unit_identifier : String
  name : String
  phone : String
deriving DecidableEq, Repr

/-- The whole relational store: one list per table, in iteration order. -/
structure DB where
  users : List User
  tenantUsers : List TenantUser
  properties : List Property
  units : List Unit
  tenants : List Tenant
  leases : List Lease
  payments : List Payment
  maintenanceRequests : List MaintenanceRequest
  leaseRequests : List LeaseRequest
  emergencyContacts : List EmergencyContact
deriving DecidableEq, Repr

/-- A logged-in principal: a row of the admin table or of the
tenant-account table. -/
inductive Principal where
  | admin (u : User)
  | tenant (t : TenantUser)
deriving DecidableEq, Repr

/-- `get_id` of the two account models: the prefixed session identifier
stored by the login machinery. -/
def Principal.get_id : Principal → String
  | .admin u => "user_" ++ String.mk (natDecimal u.id)
  | .tenant t => "tenant_" ++ String.mk (natDecimal t.id)

/-- `is_admin_user`: the current principal's identifier starts with
`user_`, i.e. it is a row of the admin table. -/
def isAdminPrincipal : Option Principal → Bool
  | some (.admin _) => true
  | _ => false

/-- `is_tenant_user`: the current principal's identifier starts with
`tenant_`, i.e. it is a row of the tenant-account table. -/
def isTenantPrincipal : Option Principal → Bool
  | some (.tenant _) => true
  | _ => false

/-- HTTP-level outcome of a request handler. -/
inductive Resp where
  | page (name : String)
  | redirectFlash (target : String) (msg : String)
  | forbidden (msg : String)
  | badRequest (msg : String)
  | unauthorized (msg : String)
  | notFoundJson (msg : String)
  | notFound
  | okJson (msg : String)
  | serverError
deriving DecidableEq, Repr

/-- An authorization failure (the HTTP 403 responses the role checks
produce). -/
def isAuthzError : Resp → Bool
  | .forbidden _ => true
  | _ => false

/-- A 4xx validation failure with no write applied. -/
def isClientError : Resp → Bool
  | .badRequest _ => true
  | _ => false

/-! ### Password hashing (werkzeug `generate_password_hash` /
`check_password_hash`)

The library's salted one-way hash is abstracted as an injective encoding:
verification succeeds exactly for the password the stored hash was
generated from, which is the library's contract. -/

/-- Model of werkzeug `generate_password_hash`. -/
def generate_password_hash (password : String) : String :=
  "pbkdf2:sha256$" ++ password

/-- Model of werkzeug `check_password_hash`: succeeds exactly when `h` was
generated from `password`. -/
def check_password_hash (h password : String) : Bool :=
  h == "pbkdf2:sha256$" ++ password

/-- `User.check_password`. -/
def User.check_password (u : User) (password : String) : Bool :=
  check_password_hash u.password_hash password

/-- `TenantUser.check_password`. -/
def TenantUser.check_password (t : TenantUser) (password : String) : Bool :=
  check_password_hash t.password_hash password

/-! ### Session restore (`load_user`) -/

/-- The fallback tail of `load_user`: parse the raw identifier as an
integer, probe the admin table, then the tenant-account table; no
principal when parsing or both lookups fail. -/
def load_user_fallback (user_id : String) (db : DB) : Option Principal :=
  match pyInt? user_id with
  | none => none
  | some uid =>
    match db.users.find? (fun u => ((u.id : Int) == uid)) with
    | some u => some (.admin u)
    | none =>
      (db.tenantUsers.find? (fun t => ((t.id : Int) == uid))).map Principal.tenant

/-- `load_user`: restore the session principal from its stored string
identifier.  Prefixed identifiers dispatch by table; the `except` clause
around the prefixed branch routes any parse failure to the fallback. -/
def load_user (user_id : String) (db : DB) : Option Principal :=
  match splitOnFirstUnderscore user_id with
  | none => load_user_fallback user_id db
  | some (pre, rest) =>
    match pyInt? rest with
    | none => load_user_fallback user_id db
    | some uid =>
      if pre = "user" then
        (db.users.find? (fun u => ((u.id : Int) == uid))).map Principal.admin
      else if pre = "tenant" then
        (db.tenantUsers.find? (fun t => ((t.id : Int) == uid))).map Principal.tenant
      else load_user_fallback user_id db

/-! ### Authentication handlers -/

/-- `login` (admin login POST): look the username up in the admin table and
verify the password against the stored hash. -/
def login (username password : String) (db : DB) : Option Principal × Resp :=
  match db.users.find? (fun u => u.username == username) with
  | some u =>
    if u.check_password password then
      (some (.admin u), .redirectFlash "dashboard" "Logged in.")
    else (none, .page "login")
  | none => (none, .page "login")

/-- `tenant_login` (tenant login POST): look the username up in the
tenant-account table and verify the password against the stored hash. -/
def tenant_login (username password : String) (db : DB) :
    Option Principal × Resp :=
  match db.tenantUsers.find? (fun t => t.username == username) with
  | some t =>
    if t.check_password password then
      (some (.tenant t), .redirectFlash "dashboard" "Logged in as tenant.")
    else (none, .page "tenant_login")
  | none => (none, .page "tenant_login")

/-- `admin_autologin`: quick admin login from the home page.  The submitted
password is compared to the literal string `admin1234`, not to the stored
hash. -/
def admin_autologin (pw : String) (db : DB) : Option Principal × Resp :=
  if pw == "" then (none, .badRequest "Password required.")
  else if pw == "admin1234" then
    match db.users.find? (fun u => u.username == "admin") with
    | some admin => (some (.admin admin), .okJson "dashboard")
    | none => (none, .notFoundJson "Admin user not found.")
  else (none, .unauthorized "Incorrect password.")

/-- The current-password check of `change_password`:
`current_user.check_password(current)`. -/
def change_password_current_ok (p : Principal) (current : String) : Bool :=
  match p with
  | .admin u => u.check_password current
  | .tenant t => t.check_password current

/-! ### Booking workflow handlers -/

/-- `approve_booking_request`.  Admin only; no check of the request's
current status.  A dangling tenant-account or unit reference raises
`AttributeError` before commit (`Resp.serverError`, database unchanged). -/
def approve_booking_request (p : Option Principal) (request_id : Nat)
    (db : DB) : DB × Resp :=
  if !isAdminPrincipal p then (db, .forbidden "Admin access only")
  else
    match db.leaseRequests.find? (fun r => r.id == request_id) with
    | none => (db, .redirectFlash "booking_requests" "Booking request not found.")
    | some lease_req =>
      match db.tenantUsers.find? (fun t => t.id == lease_req.tenant_user_id) with
      | none => (db, .serverError)
      | some tenant_user =>
        match db.units.find? (fun u => u.id == lease_req.unit_id) with
        | none => (db, .serverError)
        | some _ =>
          let statusUpdated :=
            replaceFirst (fun r => r.id == request_id)
              (fun r => { r with status := "approved" }) db.leaseRequests
          let tenantPair : List Tenant × Nat :=
            match db.tenants.find? (fun t => t.email == tenant_user.email) with
            | some t => (db.tenants, t.id)
            | none =>
              let nt : Tenant :=
                ⟨freshId (db.tenants.map (fun t => t.id)), tenant_user.username,
                  tenant_user.phone, tenant_user.email⟩
              (db.tenants ++ [nt], nt.id)
          let unitsUpdated :=
            replaceFirst (fun u => u.id == lease_req.unit_id)
              (fun u => { u with status := "occupied" }) db.units
          let newLease : Lease :=
            ⟨freshId (db.leases.map (fun l => l.id)), lease_req.unit_id, tenantPair.2,
              lease_req.start_date, lease_req.end_date, some 0⟩
          ({ db with
              leaseRequests := statusUpdated
              tenants := tenantPair.1
              units := unitsUpdated
              leases := db.leases ++ [newLease] },
            .redirectFlash "booking_requests" "Booking request approved! Lease created.")

/-- `reject_booking_request`.  Admin only; no check of the request's
current status; sets only the status field. -/
def reject_booking_request (p : Option Principal) (request_id : Nat)
    (db : DB) : DB × Resp :=
  if !isAdminPrincipal p then (db, .forbidden "Admin access only")
  else
    match db.leaseRequests.find? (fun r => r.id == request_id) with
    | none => (db, .redirectFlash "booking_requests" "Booking request not found.")
    | some _ =>
      ({ db with
          leaseRequests :=
            replaceFirst (fun r => r.id == request_id)
              (fun r => { r with status := "rejected" }) db.leaseRequests },
        .redirectFlash "booking_requests" "Booking request rejected.")

/-- `purge_rejected_requests`.  Admin only; deletes every booking request
with status `rejected` and reports the count.  `raiseErr` is the oracle for
"the delete/commit raises a persistence error": in that case the
transaction is rolled back and a failure notice flashed. -/
def purge_rejected_requests (p : Option Principal) (raiseErr : Bool)
    (db : DB) : DB × Resp :=
  if !isAdminPrincipal p then (db, .forbidden "Admin access only")
  else if raiseErr then
    (db, .redirectFlash "booking_requests" "Error purging rejected requests.")
  else
    let deleted := (db.leaseRequests.filter (fun r => r.status == "rejected")).length
    ({ db with
        leaseRequests := db.leaseRequests.filter (fun r => !(r.status == "rejected")) },
      .redirectFlash "booking_requests"
        ("Purged " ++ String.mk (natDecimal deleted) ++ " rejected booking request(s)."))

/-- `book_unit`: tenant-only booking submission.  Form fields arrive as raw
strings; `unit_id` goes through `int(...)`, the date fields through
`fromisoformat` when non-empty, then the falsiness check
`all([unit_id, start_date, end_date])`, then the unit must exist and be
vacant; the requesting account id is recovered from the session
identifier. -/
def book_unit (p : Option Principal) (unit_id_s sd_s ed_s notes : String)
    (db : DB) : DB × Resp :=
  if !isTenantPrincipal p then (db, .forbidden "Only tenants can book units")
  else
    match pyInt? unit_id_s with
    | none => (db, .badRequest "Invalid unit id")
    | some uid =>
      match (if sd_s == "" then some none else (fromisoformatDate? sd_s).map some),
            (if ed_s == "" then some none else (fromisoformatDate? ed_s).map some) with
      | some sdo, some edo =>
        if uid == 0 || sd_s == "" || ed_s == "" then
          (db, .badRequest "All fields required")
        else
          match db.units.find? (fun u => ((u.id : Int) == uid)) with
          | none => (db, .badRequest "Unit is not available")
          | some u =>
            if !(u.status == "vacant") then (db, .badRequest "Unit is not available")
            else
              match p with
              | none => (db, .badRequest "Unable to identify tenant user id")
              | some pr =>
                match splitOnFirstUnderscore pr.get_id with
                | some pair =>
                  match pyInt? pair.2 with
                  | none => (db, .badRequest "Unable to identify tenant user id")
                  | some tuid =>
                    let lease_req : LeaseRequest :=
                      ⟨freshId (db.leaseRequests.map (fun r => r.id)), uid.toNat,
                        tuid.toNat, sdo, edo, notes, "pending"⟩
                    ({ db with leaseRequests := db.leaseRequests ++ [lease_req] },
                      .okJson "Booking request created successfully")
                | none =>
                  let tuid :=
                    match pr with
                    | .admin u2 => u2.id
                    | .tenant t2 => t2.id
                  let lease_req : LeaseRequest :=
                    ⟨freshId (db.leaseRequests.map (fun r => r.id)), uid.toNat,
                      tuid, sdo, edo, notes, "pending"⟩
                  ({ db with leaseRequests := db.leaseRequests ++ [lease_req] },
                    .okJson "Booking request created successfully")
      | _, _ => (db, .badRequest "Invalid date format")

/-! ### Dashboard aggregates -/

/-- One row of the dashboard's `balances` list. -/
structure BalanceEntry where
  lease_id : Nat
  expected : Int
  paid : Int
  balance : Int
deriving DecidableEq, Repr

/-- Elapsed whole months, floored at zero:
`max(0, (today.year - start.year) * 12 + (today.month - start.month))`. -/
def monthsElapsed (today startd : Date) : Int :=
  max 0 ((today.year - startd.year) * 12 + (today.month - startd.month))

/-- `l.payments`: the payment rows whose foreign key references lease `l`. -/
def leasePayments (db : DB) (l : Lease) : List Payment :=
  db.payments.filter (fun pay => pay.lease_id == l.id)

/-- The dashboard's balance pass: one entry per lease with a start date, in
lease-iteration order.  `expected = months * (monthly_rent or 0)`,
`paid = sum(p.amount ...)`, `balance = expected - paid`. -/
def computeBalances (today : Date) (db : DB) : List BalanceEntry :=
  db.leases.filterMap (fun l =>
    match l.start_date with
    | none => none
    | some s =>
      let months := monthsElapsed today s
      let expected := months * l.monthly_rent.getD 0
      let paid := (leasePayments db l).foldl (fun a pay => a + pay.amount) 0
      some ⟨l.id, expected, paid, expected - paid⟩)

/-- Value stored under a unit key by the dashboard's "latest tenant"
pass. -/
structure UTEntry where
  tenant_name : Option String
  lease_id : Nat
deriving DecidableEq, Repr

/-- Python `hasattr(existing, 'id')` where `existing` is a `dict`: always
`False`, so the `l.id > existing['lease_id']` comparison in the dashboard
is never evaluated. -/
def dictHasAttrId : Bool := false

/-- Dict assignment `m[k] = v`: replace the binding if `k` is present,
otherwise append it. -/
def dictInsert (m : List (Nat × UTEntry)) (k : Nat) (v : UTEntry) :
    List (Nat × UTEntry) :=
  if m.any (fun kv => kv.1 == k) then
    m.map (fun kv => if kv.1 == k then (k, v) else kv)
  else m ++ [(k, v)]

/-- Dict lookup `m.get(k)`. -/
def dictGet (m : List (Nat × UTEntry)) (k : Nat) : Option UTEntry :=
  (m.find? (fun kv => kv.1 == k)).map (fun kv => kv.2)

/-- The dashboard's "map latest tenant per unit" loop, iterated over
`leases` in the given order.  The guard is transcribed literally:
`not existing or (hasattr(l, 'id') and l.id and (not hasattr(existing,
'id') or l.id > existing['lease_id']))`, with `hasattr(l, 'id')` true and
`l.id` truthy iff nonzero. -/
def unitTenantsPass (db : DB) (leases : List Lease) : List (Nat × UTEntry) :=
  leases.foldl (fun m l =>
    let tname := (db.tenants.find? (fun t => t.id == l.tenant_id)).map (fun t => t.name)
    match dictGet m l.unit_id with
    | none => dictInsert m l.unit_id ⟨tname, l.id⟩
    | some existing =>
      if l.id != 0 && (!dictHasAttrId || l.id > existing.lease_id) then
        dictInsert m l.unit_id ⟨tname, l.id⟩
      else m) []

/-- The dashboard's `unit_tenants` dict after projecting each entry to its
tenant name. -/
def unit_tenants (db : DB) : List (Nat × Option String) :=
  (unitTenantsPass db db.leases).map (fun kv => (kv.1, kv.2.tenant_name))

/-- `Lease.query.filter_by(unit_id=uid).order_by(Lease.id.desc()).first()`:
the lease with the largest id among those referencing the unit. -/
def latestLeaseForUnit (leases : List Lease) (uid : Nat) : Option Lease :=
  (leases.filter (fun l => l.unit_id == uid)).foldl
    (fun acc l =>
      match acc with
      | none => some l
      | some m => if l.id > m.id then some l else some m)
    none

/-- The dashboard's `unit_latest_rent` dict: per unit, the rent of its
highest-id lease (`some 0` for a unit referenced by no lease; a lease with
a null rent column reports `none`). -/
def unit_latest_rent (db : DB) : List (Nat × Option Int) :=
  db.units.map (fun u =>
    (u.id,
      match latestLeaseForUnit db.leases u.id with
      | some l => l.monthly_rent
      | none => some 0))

/-! ### Unauthenticated CRUD handlers (no `login_required`, no role check
in the source) -/

/-- `tenant_create` (POST): inserts a Tenant; the principal is never
consulted. -/
def tenant_create (_p : Option Principal) (name phone email : String)
    (db : DB) : DB × Resp :=
  let t : Tenant := ⟨freshId (db.tenants.map (fun x => x.id)), name, phone, email⟩
  ({ db with tenants := db.tenants ++ [t] },
    .redirectFlash "tenants_list" "Tenant created.")

/-- `tenant_edit` (POST): `get_or_404` then overwrite name/phone/email; the
principal is never consulted. -/
def tenant_edit (_p : Option Principal) (tid : Nat)
    (name phone email : String) (db : DB) : DB × Resp :=
  match db.tenants.find? (fun t => t.id == tid) with
  | none => (db, .notFound)
  | some _ =>
    ({ db with
        tenants :=
          replaceFirst (fun t => t.id == tid)
            (fun t => { t with name := name, phone := phone, email := email })
            db.tenants },
      .redirectFlash "tenants_list" "Tenant updated.")

/-- `lease_create` (POST): inserts a Lease and marks the referenced unit
occupied when it exists; the principal is never consulted. -/
def lease_create (_p : Option Principal) (unit_id tenant_id : Nat)
    (sd ed : Option Date) (monthly_rent : Int) (db : DB) : DB × Resp :=
  let l : Lease :=
    ⟨freshId (db.leases.map (fun x => x.id)), unit_id, tenant_id, sd, ed,
      some monthly_rent⟩
  ({ db with
      leases := db.leases ++ [l]
      units :=
        replaceFirst (fun u => u.id == unit_id)
          (fun u => { u with status := "occupied" }) db.units },
    .redirectFlash "leases_list" "Lease created.")

/-- `lease_edit` (POST): `get_or_404` then overwrite all fields; the
principal is never consulted. -/
def lease_edit (_p : Option Principal) (lid : Nat) (unit_id tenant_id : Nat)
    (sd ed : Option Date) (monthly_rent : Int) (db : DB) : DB × Resp :=
  match db.leases.find? (fun l => l.id == lid) with
  | none => (db, .notFound)
  | some _ =>
    ({ db with
        leases :=
          replaceFirst (fun l => l.id == lid)
            (fun l =>
              { l with
                  unit_id := unit_id, tenant_id := tenant_id,
                  start_date := sd, end_date := ed,
                  monthly_rent := some monthly_rent })
            db.leases },
      .redirectFlash "leases_list" "Lease updated.")

/-- `payment_create` (POST): inserts a Payment; the principal is never
consulted. -/
def payment_create (_p : Option Principal) (lease_id : Nat) (amount : Int)
    (db : DB) : DB × Resp :=
  let pay : Payment := ⟨freshId (db.payments.map (fun x => x.id)), lease_id, amount⟩
  ({ db with payments := db.payments ++ [pay] },
    .redirectFlash "payments_list" "Payment logged.")

/-- `maintenance_create` (POST): inserts a MaintenanceRequest with default
status `open`; the principal is never consulted. -/
def maintenance_create (_p : Option Principal) (unit_id : Nat)
    (description : String) (db : DB) : DB × Resp :=
  let mr : MaintenanceRequest :=
    ⟨freshId (db.maintenanceRequests.map (fun x => x.id)), unit_id,
      description, "open"⟩
  ({ db with maintenanceRequests := db.maintenanceRequests ++ [mr] },
    .redirectFlash "maintenance_list" "Maintenance request created.")

/-- `maintenance_edit` (POST): `get_or_404` then overwrite description and
status; the principal is never consulted. -/
def maintenance_edit (_p : Option Principal) (mid : Nat)
    (description status : String) (db : DB) : DB × Resp :=
  match db.maintenanceRequests.find? (fun r => r.id == mid) with
  | none => (db, .notFound)
  | some _ =>
    ({ db with
        maintenanceRequests :=
          replaceFirst (fun r => r.id == mid)
            (fun r => { r with description := description, status := status })
            db.maintenanceRequests },
      .redirectFlash "maintenance_list" "Maintenance request updated.")

/-- `emergency_contact_create` (POST): inserts an EmergencyContact; the
principal is never consulted. -/
def emergency_contact_create (_p : Option Principal)
    (unit_identifier name phone : String) (db : DB) : DB × Resp :=
  let c : EmergencyContact :=
    ⟨freshId (db.emergencyContacts.map (fun x => x.id)), unit_identifier,
      name, phone⟩
  ({ db with emergencyContacts := db.emergencyContacts ++ [c] },
    .redirectFlash "emergency_contacts_list" "Emergency contact added.")

/-- `emergency_contact_edit` (POST): `get_or_404` then overwrite all
fields; the principal is never consulted. -/
def emergency_contact_edit (_p : Option Principal) (cid : Nat)
    (unit_identifier name phone : String) (db : DB) : DB × Resp :=
  match db.emergencyContacts.find? (fun c => c.id == cid) with
  | none => (db, .notFound)
  | some _ =>
    ({ db with
        emergencyContacts :=
          replaceFirst (fun c => c.id == cid)
            (fun c =>
              { c with unit_identifier := unit_identifier, name := name, phone := phone })
            db.emergencyContacts },
      .redirectFlash "emergency_contacts_list" "Emergency contact updated.")

/-- `emergency_contact_delete` (POST): `get_or_404` then hard delete; the
principal is never consulted. -/
def emergency_contact_delete (_p : Option Principal) (cid : Nat)
    (db : DB) : DB × Resp :=
  match db.emergencyContacts.find? (fun c => c.id == cid) with
  | none => (db, .notFound)
  | some _ =>
    ({ db with
        emergencyContacts := db.emergencyContacts.filter (fun c => !(c.id == cid)) },
      .redirectFlash "emergency_contacts_list" "Emergency contact deleted.")

/-- Value of a digit list read most-significant first, continuing from
`acc` (specification artifact for reasoning about `pyIntGo`). -/
def digitsVal (cs : List Char) (acc : Nat) : Nat :=
  cs.foldl (fun a c => a * 10 + digitVal c) acc

/-! ### Concrete example data (for witnesses and counterexamples) -/

/-- A store with every table empty. -/
def emptyDB : DB := ⟨[], [], [], [], [], [], [], [], [], []⟩

/-- The seeded admin account. -/
def exAdmin : User := ⟨1, "admin", generate_password_hash "admin1234"⟩

/-- A tenant account with id 7. -/
def exTenantAcct : TenantUser :=
  ⟨7, "tenant", "tenant@example.com", generate_password_hash "tenant123", "0917"⟩

/-- A store holding one pending booking request for vacant unit 5 by
account 7. -/
def dbPending : DB :=
  { emptyDB with
      users := [exAdmin]
      tenantUsers := [exTenantAcct]
      properties := [⟨1, "Greenfield Heights", "123 Main St"⟩]
      units := [⟨5, "Room 5", "vacant", 1⟩]
      leaseRequests := [⟨1, 5, 7, some ⟨2026, 1, 1⟩, some ⟨2026, 12, 31⟩, "", "pending"⟩] }

/-- Like `dbPending` but the booking request is already rejected. -/
def dbRejected : DB :=
  { emptyDB with
      users := [exAdmin]
      tenantUsers := [exTenantAcct]
      units := [⟨5, "Room 5", "vacant", 1⟩]
      leaseRequests := [⟨1, 5, 7, some ⟨2026, 1, 1⟩, some ⟨2026, 12, 31⟩, "", "rejected"⟩] }

/-- A store with a mix of pending, approved and rejected requests. -/
def dbPurge : DB :=
  { emptyDB with
      users := [exAdmin]
      leaseRequests :=
        [⟨1, 5, 7, none, none, "", "pending"⟩,
         ⟨2, 5, 7, none, none, "", "rejected"⟩,
         ⟨3, 6, 7, none, none, "", "approved"⟩,
         ⟨4, 6, 7, none, none, "", "rejected"⟩] }

/-- A reference "current date". -/
def exToday : Date := ⟨2026, 10, 12⟩

/-- A lease that started exactly 3 calendar months before `exToday`, at
monthly rent 5000. -/
def exLease3mo : Lease := ⟨1, 5, 1, some ⟨2026, 7, 12⟩, some ⟨2027, 7, 12⟩, some 5000⟩

/-- A store whose one lease is `exLease3mo` with total payments 8000. -/
def dbBalance : DB :=
  { emptyDB with
      units := [⟨5, "Room 5", "occupied", 1⟩]
      tenants := [⟨1, "Juan Dela Cruz", "0917", "juan@example.com"⟩]
      leases := [exLease3mo]
      payments := [⟨1, 1, 3000⟩, ⟨2, 1, 5000⟩] }

/-- A tenant account sharing numeric id 7 with an admin account. -/
def exTenantUser7 : TenantUser :=
  ⟨7, "tenant7", "t7@example.com", generate_password_hash "tenant123", "0918"⟩

/-- A store where the admin table and the tenant-account table both have a
row with id 7. -/
def dbDual : DB :=
  { emptyDB with
      users := [⟨7, "admin7", generate_password_hash "admin1234"⟩]
      tenantUsers := [exTenantUser7] }

/-- A store whose lease list is iterated in descending id order: unit 1 is
referenced by lease 2 (tenant Alice, rent 700) and lease 1 (tenant Bob,
rent 500). -/
def dbLatest : DB :=
  { emptyDB with
      units := [⟨1, "Room 1", "occupied", 1⟩]
      tenants :=
        [⟨1, "Alice", "0911", "alice@example.com"⟩,
         ⟨2, "Bob", "0912", "bob@example.com"⟩]
      leases :=
        [⟨2, 1, 1, none, none, some 700⟩,
         ⟨1, 1, 2, none, none, some 500⟩] }

/-- A store whose admin account's stored hash was generated from
`newpass`, not from `admin1234`. -/
def dbChangedPw : DB :=
  { emptyDB with users := [⟨1, "admin", generate_password_hash "newpass"⟩] }

/-- A store with a vacant unit 5 and tenant account 7, ready for a booking
submission. -/
def dbBook : DB :=
  { emptyDB with
      users := [exAdmin]
      tenantUsers := [exTenantAcct]
      units := [⟨5, "Room 5", "vacant", 1⟩] }

/-- A store with one row of each kind touched by the unauthenticated CRUD
handlers. -/
def dbCrud : DB :=
  { emptyDB with
      units := [⟨1, "Room 1", "vacant", 1⟩]
      tenants := [⟨1, "Juan Dela Cruz", "0917", "juan@example.com"⟩]
      leases := [⟨1, 1, 1, none, none, some 4000⟩]
      maintenanceRequests := [⟨1, 1, "Leaky faucet", "open"⟩]
      emergencyContacts := [⟨1, "Room 1", "Property Manager 1", "0917"⟩] }

/-! ## Lemmas about the string machinery -/

theorem natDecimalAux_congr (f1 f2 n : Nat) (h1 : n < f1) (h2 : n < f2) :
    natDecimalAux f1 n = natDecimalAux f2 n := by
  induction f1 generalizing f2 n with
  | zero => omega
  | succ f ih =>
    cases f2 with
    | zero => omega
    | succ g =>
      rw [natDecimalAux, natDecimalAux]
      by_cases hn : n < 10
      · simp [hn]
      · simp only [hn, if_false]
        have hd : n / 10 < n := Nat.div_lt_self (by omega) (by omega)
        rw [ih g (n / 10) (by omega) (by omega)]

/-- The recurrence `natDecimal` satisfies (fuel elimination). -/
theorem natDecimal_eq (n : Nat) :
    natDecimal n =
      if n < 10 then [digitChar n]
      else natDecimal (n / 10) ++ [digitChar (n % 10)] := by
  rw [natDecimal, natDecimal, natDecimalAux]
  by_cases hn : n < 10
  · simp [hn]
  · simp only [hn, if_false]
    have hd : n / 10 < n := Nat.div_lt_self (by omega) (by omega)
    rw [natDecimalAux_congr n (n / 10 + 1) (n / 10) (by omega) (by omega)]

theorem digitChar_isDigit (d : Nat) (h : d < 10) :
    (digitChar d).isDigit = true := by
  interval_cases d <;> decide

theorem digitVal_digitChar (d : Nat) (h : d < 10) :
    digitVal (digitChar d) = d := by
  interval_cases d <;> decide

theorem natDecimal_digits (n : Nat) :
    ∀ c ∈ natDecimal n, c.isDigit = true := by
  induction n using Nat.strong_induction_on with
  | _ n ih =>
    rw [natDecimal_eq]
    split
    · intro c hc
      rw [List.mem_singleton] at hc
      subst hc
      exact digitChar_isDigit n (by omega)
    · intro c hc
      rcases List.mem_append.mp hc with h1 | h1
      · exact ih (n / 10) (Nat.div_lt_self (by omega) (by omega)) c h1
      · rw [List.mem_singleton] at h1
        subst h1
        exact digitChar_isDigit (n % 10) (Nat.mod_lt n (by omega))

theorem natDecimal_ne_nil (n : Nat) : natDecimal n ≠ [] := by
  rw [natDecimal_eq]
  split
  · simp
  · simp

theorem pyIntGo_digits (cs : List Char) (acc : Nat)
    (h : ∀ c ∈ cs, c.isDigit = true) :
    pyIntGo cs acc = some (digitsVal cs acc) := by
  induction cs generalizing acc with
  | nil => rfl
  | cons c rest ih =>
    have hc : c.isDigit = true := h c (List.mem_cons_self c rest)
    rw [pyIntGo.eq_def]
    simp only [hc, if_true]
    rw [ih _ (fun x hx => h x (List.mem_cons_of_mem c hx))]
    rfl

theorem digitsVal_append (xs ys : List Char) (acc : Nat) :
    digitsVal (xs ++ ys) acc = digitsVal ys (digitsVal xs acc) :=
  List.foldl_append _ _ _ _

theorem digitsVal_natDecimal (n : Nat) :
    ∀ acc, digitsVal (natDecimal n) acc = acc * 10 ^ (natDecimal n).length + n := by
  induction n using Nat.strong_induction_on with
  | _ n ih =>
    intro acc
    rw [natDecimal_eq]
    split
    · next h =>
      show acc * 10 + digitVal (digitChar n) = acc * 10 ^ 1 + n
      rw [digitVal_digitChar n h]
      ring
    · next h =>
      rw [digitsVal_append, ih (n / 10) (Nat.div_lt_self (by omega) (by omega))]
      simp only [digitsVal, List.foldl_cons, List.foldl_nil, List.length_append,
        List.length_singleton]
      rw [digitVal_digitChar (n % 10) (Nat.mod_lt n (by omega)), pow_succ]
      generalize (10 : ℕ) ^ (natDecimal (n / 10)).length = P
      have hdm : 10 * (n / 10) + n % 10 = n := Nat.div_add_mod n 10
      have expand : (acc * P + n / 10) * 10 + n % 10 =
          acc * (P * 10) + (10 * (n / 10) + n % 10) := by ring
      rw [expand, hdm]

theorem parseUDigits_digits (cs : List Char) (hne : cs ≠ [])
    (h : ∀ c ∈ cs, c.isDigit = true) :
    parseUDigits cs = some (digitsVal cs 0) := by
  cases cs with
  | nil => exact absurd rfl hne
  | cons c rest =>
    have hc : c.isDigit = true := h c (List.mem_cons_self c rest)
    rw [parseUDigits, if_pos hc,
      pyIntGo_digits rest (digitVal c) (fun x hx => h x (List.mem_cons_of_mem c hx))]
    show some (digitsVal rest (digitVal c)) = some (digitsVal rest (0 * 10 + digitVal c))
    norm_num

theorem digit_not_ws (c : Char) (h : c.isDigit = true) :
    c.isWhitespace = false := by
  rcases Bool.eq_false_or_eq_true c.isWhitespace with hw | hw
  · exfalso
    have h1 : ((c = ' ' ∨ c = '\t') ∨ c = '\r') ∨ c = '\n' := by
      simpa [Char.isWhitespace] using hw
    rcases h1 with ((rfl | rfl) | rfl) | rfl <;> exact absurd h (by decide)
  · exact hw

theorem dropWhile_not_ws (cs : List Char)
    (h : ∀ c ∈ cs, c.isWhitespace = false) :
    cs.dropWhile Char.isWhitespace = cs := by
  cases cs with
  | nil => rfl
  | cons c rest => simp [List.dropWhile_cons, h c (List.mem_cons_self c rest)]

theorem stripWs_of_digits (cs : List Char)
    (h : ∀ c ∈ cs, c.isDigit = true) : stripWs cs = cs := by
  have h1 : ∀ c ∈ cs, c.isWhitespace = false := fun c hc => digit_not_ws c (h c hc)
  unfold stripWs
  rw [dropWhile_not_ws cs h1,
    dropWhile_not_ws _ (fun c hc => h1 c (List.mem_reverse.mp hc)),
    List.reverse_reverse]

theorem pyInt?_mk_natDecimal (n : Nat) :
    pyInt? (String.mk (natDecimal n)) = some (n : Int) := by
  obtain ⟨c, rest, hcr⟩ := List.exists_cons_of_ne_nil (natDecimal_ne_nil n)
  have hall : ∀ x ∈ natDecimal n, x.isDigit = true := natDecimal_digits n
  have hc : c.isDigit = true := hall c (by rw [hcr]; exact List.mem_cons_self c rest)
  have hplus : ¬(c = '+') := fun he => absurd (he ▸ hc) (by decide)
  have hminus : ¬(c = '-') := fun he => absurd (he ▸ hc) (by decide)
  have hdata : (String.mk (natDecimal n)).data = natDecimal n := rfl
  rw [pyInt?, hdata, stripWs_of_digits _ hall, hcr]
  simp only [if_neg hplus, if_neg hminus]
  rw [← hcr, parseUDigits_digits _ (natDecimal_ne_nil n) hall,
    digitsVal_natDecimal n 0]
  simp

theorem splitU_append (l1 l2 : List Char) (h : '_' ∉ l1) :
    splitU (l1 ++ '_' :: l2) = some (l1, l2) := by
  induction l1 with
  | nil => simp [splitU]
  | cons c rest ih =>
    have hc : ¬(c = '_') := fun hce => h (hce ▸ List.mem_cons_self c rest)
    have hrest : '_' ∉ rest := fun hm => h (List.mem_cons_of_mem c hm)
    simp [splitU, hc, ih hrest]

theorem split_tenant_prefixed (s : String) :
    splitOnFirstUnderscore ("tenant_" ++ s) = some ("tenant", s) := by
  have hdata : ("tenant_" ++ s).data = "tenant".data ++ '_' :: s.data := by
    rw [String.data_append]
    rfl
  rw [splitOnFirstUnderscore, hdata,
    splitU_append "tenant".data s.data (by decide)]
  cases s
  rfl

theorem split_user_prefixed (s : String) :
    splitOnFirstUnderscore ("user_" ++ s) = some ("user", s) := by
  have hdata : ("user_" ++ s).data = "user".data ++ '_' :: s.data := by
    rw [String.data_append]
    rfl
  rw [splitOnFirstUnderscore, hdata,
    splitU_append "user".data s.data (by decide)]
  cases s
  rfl

/-- Filtering a list by a predicate and by its negation partitions it. -/
theorem length_filter_add_length_filter_not (l : List LeaseRequest)
    (p : LeaseRequest → Bool) :
    (l.filter p).length + (l.filter (fun r => !p r)).length = l.length := by
  induction l with
  | nil => rfl
  | cons x xs ih =>
    by_cases hx : p x = true
    · simp [List.filter_cons, hx, ih]
      omega
    · simp only [Bool.not_eq_true] at hx
      simp [List.filter_cons, hx, ih]
      omega

/-! ## Claim theorems -/

/-- C8: for every existing booking request, the admin reject operation
rewrites only that request's status field to `rejected`; every other
table, every other request, and the request's other fields are unchanged. -/
theorem C8_reject_only_status (p : Option Principal) (db : DB) (rid : Nat)
    (hadmin : isAdminPrincipal p = true)
    (hfind : (db.leaseRequests.find? (fun r => r.id == rid)).isSome = true) :
    reject_booking_request p rid db =
      ({ db with
          leaseRequests :=
            replaceFirst (fun r => r.id == rid)
              (fun r => { r with status := "rejected" }) db.leaseRequests },
        .redirectFlash "booking_requests" "Booking request rejected.") := by
  obtain ⟨lr, hlr⟩ := Option.isSome_iff_exists.mp hfind
  rw [reject_booking_request, hadmin]
  simp only [Bool.not_true, Bool.false_eq_true, if_false, hlr]

/-- C8 witness: rejecting the concrete pending request of `dbPending`. -/
theorem C8_reject_only_status_witness :
    (reject_booking_request (some (.admin exAdmin)) 1 dbPending).1.leaseRequests.map
        (fun r => r.status) = ["rejected"] ∧
    (reject_booking_request (some (.admin exAdmin)) 1 dbPending).1.leases =
      dbPending.leases := by
  have h := C8_reject_only_status (some (.admin exAdmin)) dbPending 1 rfl (by decide)
  rw [h]
  exact ⟨by decide, rfl⟩

/-- C5: the admin purge deletes exactly the rejected rows, keeps all other
rows and tables, and reports the number removed; when the deletion raises,
everything is rolled back and a failure notice flashed. -/
theorem C5_purge_rejected (p : Option Principal) (db : DB) (raiseErr : Bool)
    (hadmin : isAdminPrincipal p = true) :
    (raiseErr = false →
      purge_rejected_requests p raiseErr db =
        ({ db with
            leaseRequests :=
              db.leaseRequests.filter (fun r => !(r.status == "rejected")) },
          .redirectFlash "booking_requests"
            ("Purged " ++
              String.mk (natDecimal
                ((db.leaseRequests.filter (fun r => r.status == "rejected")).length)) ++
              " rejected booking request(s)."))) ∧
    ((db.leaseRequests.filter (fun r => r.status == "rejected")).length +
        (db.leaseRequests.filter (fun r => !(r.status == "rejected"))).length =
      db.leaseRequests.length) ∧
    (raiseErr = true →
      purge_rejected_requests p raiseErr db =
        (db, .redirectFlash "booking_requests" "Error purging rejected requests.")) := by
  refine ⟨?_, ?_, ?_⟩
  · intro hr
    rw [purge_rejected_requests, hadmin, hr]
    rfl
  · exact length_filter_add_length_filter_not db.leaseRequests _
  · intro hr
    rw [purge_rejected_requests, hadmin, hr]
    rfl

/-- C5 witness: purging `dbPurge` removes its two rejected rows and
reports 2; the failing run leaves `dbPurge` unchanged. -/
theorem C5_purge_rejected_witness :
    (purge_rejected_requests (some (.admin exAdmin)) false dbPurge).1.leaseRequests.map
        (fun r => r.status) = ["pending", "approved"] ∧
    (purge_rejected_requests (some (.admin exAdmin)) false dbPurge).2 =
      .redirectFlash "booking_requests" "Purged 2 rejected booking request(s)." ∧
    (purge_rejected_requests (some (.admin exAdmin)) true dbPurge).1 = dbPurge := by
  have h := C5_purge_rejected (some (.admin exAdmin)) dbPurge false rfl
  have hT := C5_purge_rejected (some (.admin exAdmin)) dbPurge true rfl
  refine ⟨?_, ?_, ?_⟩
  · rw [h.1 rfl]
    decide
  · rw [h.1 rfl]
    decide
  · rw [hT.2.2 rfl]

/-- What the approve handler does to every existing request whose unit and
tenant-account references resolve, independently of the request's current
status (shared helper). -/
theorem approve_spec (p : Option Principal) (db : DB) (rid : Nat)
    (lr : LeaseRequest) (tu : TenantUser)
    (hadmin : isAdminPrincipal p = true)
    (hfind : db.leaseRequests.find? (fun r => r.id == rid) = some lr)
    (htu : db.tenantUsers.find? (fun t => t.id == lr.tenant_user_id) = some tu)
    (hunit : (db.units.find? (fun u => u.id == lr.unit_id)).isSome = true) :
    ∃ tid : Nat,
      (approve_booking_request p rid db).1.units =
        replaceFirst (fun u => u.id == lr.unit_id)
          (fun u => { u with status := "occupied" }) db.units ∧
      (approve_booking_request p rid db).1.leases =
        db.leases ++ [⟨freshId (db.leases.map (fun l => l.id)), lr.unit_id, tid,
          lr.start_date, lr.end_date, some 0⟩] ∧
      (approve_booking_request p rid db).1.leaseRequests =
        replaceFirst (fun r => r.id == rid)
          (fun r => { r with status := "approved" }) db.leaseRequests ∧
      (∀ t0, db.tenants.find? (fun t => t.email == tu.email) = some t0 →
        (approve_booking_request p rid db).1.tenants = db.tenants ∧ tid = t0.id) ∧
      (db.tenants.find? (fun t => t.email == tu.email) = none →
        (approve_booking_request p rid db).1.tenants =
          db.tenants ++
            [⟨freshId (db.tenants.map (fun t => t.id)), tu.username, tu.phone, tu.email⟩] ∧
        tid = freshId (db.tenants.map (fun t => t.id))) ∧
      (approve_booking_request p rid db).1.users = db.users ∧
      (approve_booking_request p rid db).1.tenantUsers = db.tenantUsers ∧
      (approve_booking_request p rid db).1.properties = db.properties ∧
      (approve_booking_request p rid db).1.payments = db.payments ∧
      (approve_booking_request p rid db).1.maintenanceRequests = db.maintenanceRequests ∧
      (approve_booking_request p rid db).1.emergencyContacts = db.emergencyContacts ∧
      (approve_booking_request p rid db).2 =
        .redirectFlash "booking_requests" "Booking request approved! Lease created." := by
  obtain ⟨u0, hu0⟩ := Option.isSome_iff_exists.mp hunit
  cases hten : db.tenants.find? (fun t => t.email == tu.email) with
  | some t0 =>
    have happ : approve_booking_request p rid db =
        ({ db with
            leaseRequests :=
              replaceFirst (fun r => r.id == rid)
                (fun r => { r with status := "approved" }) db.leaseRequests
            tenants := db.tenants
            units :=
              replaceFirst (fun u => u.id == lr.unit_id)
                (fun u => { u with status := "occupied" }) db.units
            leases := db.leases ++ [⟨freshId (db.leases.map (fun l => l.id)),
              lr.unit_id, t0.id, lr.start_date, lr.end_date, some 0⟩] },
          .redirectFlash "booking_requests" "Booking request approved! Lease created.") := by
      rw [approve_booking_request, hadmin]
      simp only [Bool.not_true, Bool.false_eq_true, if_false, hfind, htu, hu0, hten]
    refine ⟨t0.id, ?_, ?_, ?_, ?_, ?_, ?_, ?_, ?_, ?_, ?_, ?_, ?_⟩
    · rw [happ]
    · rw [happ]
    · rw [happ]
    · intro t1 ht1
      cases ht1
      exact ⟨by rw [happ], rfl⟩
    · intro hnone
      cases hnone
    · rw [happ]
    · rw [happ]
    · rw [happ]
    · rw [happ]
    · rw [happ]
    · rw [happ]
    · rw [happ]
  | none =>
    have happ : approve_booking_request p rid db =
        ({ db with
            leaseRequests :=
              replaceFirst (fun r => r.id == rid)
                (fun r => { r with status := "approved" }) db.leaseRequests
            tenants := db.tenants ++
              [⟨freshId (db.tenants.map (fun t => t.id)), tu.username, tu.phone, tu.email⟩]
            units :=
              replaceFirst (fun u => u.id == lr.unit_id)
                (fun u => { u with status := "occupied" }) db.units
            leases := db.leases ++ [⟨freshId (db.leases.map (fun l => l.id)),
              lr.unit_id, freshId (db.tenants.map (fun t => t.id)),
              lr.start_date, lr.end_date, some 0⟩] },
          .redirectFlash "booking_requests" "Booking request approved! Lease created.") := by
      rw [approve_booking_request, hadmin]
      simp only [Bool.not_true, Bool.false_eq_true, if_false, hfind, htu, hu0, hten]
    refine ⟨freshId (db.tenants.map (fun t => t.id)),
      ?_, ?_, ?_, ?_, ?_, ?_, ?_, ?_, ?_, ?_, ?_, ?_⟩
    · rw [happ]
    · rw [happ]
    · rw [happ]
    · intro t1 ht1
      cases ht1
    · intro _
      exact ⟨by rw [happ], rfl⟩
    · rw [happ]
    · rw [happ]
    · rw [happ]
    · rw [happ]
    · rw [happ]
    · rw [happ]
    · rw [happ]

/-- C1: approving a pending booking request whose referenced unit and
tenant account exist sets that unit's status to `occupied`, appends exactly
one new zero-rent lease carrying the request's dates, marks the request
`approved`, reuses an existing Tenant with the requesting account's email
(and creates exactly one new Tenant only when none exists), and changes no
other record. -/
theorem C1_approve_pending (p : Option Principal) (db : DB) (rid : Nat)
    (lr : LeaseRequest) (tu : TenantUser)
    (hadmin : isAdminPrincipal p = true)
    (hfind : db.leaseRequests.find? (fun r => r.id == rid) = some lr)
    (hstatus : lr.status = "pending")
    (htu : db.tenantUsers.find? (fun t => t.id == lr.tenant_user_id) = some tu)
    (hunit : (db.units.find? (fun u => u.id == lr.unit_id)).isSome = true) :
    ∃ tid : Nat,
      (approve_booking_request p rid db).1.units =
        replaceFirst (fun u => u.id == lr.unit_id)
          (fun u => { u with status := "occupied" }) db.units ∧
      (approve_booking_request p rid db).1.leases =
        db.leases ++ [⟨freshId (db.leases.map (fun l => l.id)), lr.unit_id, tid,
          lr.start_date, lr.end_date, some 0⟩] ∧
      (approve_booking_request p rid db).1.leaseRequests =
        replaceFirst (fun r => r.id == rid)
          (fun r => { r with status := "approved" }) db.leaseRequests ∧
      (∀ t0, db.tenants.find? (fun t => t.email == tu.email) = some t0 →
        (approve_booking_request p rid db).1.tenants = db.tenants ∧ tid = t0.id) ∧
      (db.tenants.find? (fun t => t.email == tu.email) = none →
        (approve_booking_request p rid db).1.tenants =
          db.tenants ++
            [⟨freshId (db.tenants.map (fun t => t.id)), tu.username, tu.phone, tu.email⟩] ∧
        tid = freshId (db.tenants.map (fun t => t.id))) ∧
      (approve_booking_request p rid db).1.users = db.users ∧
      (approve_booking_request p rid db).1.tenantUsers = db.tenantUsers ∧
      (approve_booking_request p rid db).1.properties = db.properties ∧
      (approve_booking_request p rid db).1.payments = db.payments ∧
      (approve_booking_request p rid db).1.maintenanceRequests = db.maintenanceRequests ∧
      (approve_booking_request p rid db).1.emergencyContacts = db.emergencyContacts ∧
      (approve_booking_request p rid db).2 =
        .redirectFlash "booking_requests" "Booking request approved! Lease created." :=
  approve_spec p db rid lr tu hadmin hfind htu hunit

/-- C1 witness: approving the concrete pending request of `dbPending`
flips unit 5 to occupied, appends one zero-rent lease, marks the request
approved, and creates exactly one Tenant (none existed for the email). -/
theorem C1_approve_pending_witness :
    (approve_booking_request (some (.admin exAdmin)) 1 dbPending).1.units.map
        (fun u => u.status) = ["occupied"] ∧
    (approve_booking_request (some (.admin exAdmin)) 1 dbPending).1.leaseRequests.map
        (fun r => r.status) = ["approved"] ∧
    (approve_booking_request (some (.admin exAdmin)) 1 dbPending).1.leases =
      [⟨1, 5, 1, some ⟨2026, 1, 1⟩, some ⟨2026, 12, 31⟩, some 0⟩] ∧
    (approve_booking_request (some (.admin exAdmin)) 1 dbPending).1.tenants.map
        (fun t => t.email) = ["tenant@example.com"] := by
  obtain ⟨tid, h1, h2, h3, _h4, h5, _⟩ :=
    C1_approve_pending (some (.admin exAdmin)) dbPending 1
      ⟨1, 5, 7, some ⟨2026, 1, 1⟩, some ⟨2026, 12, 31⟩, "", "pending"⟩
      exTenantAcct rfl (by decide) rfl (by decide) (by decide)
  obtain ⟨hten, htid⟩ := h5 (by decide)
  subst htid
  refine ⟨?_, ?_, ?_, ?_⟩
  · rw [h1]; decide
  · rw [h3]; decide
  · rw [h2]; decide
  · rw [hten]; decide

/-- C2 fails on the code: invoking approve on the already-rejected request
of `dbRejected` does not leave its status unchanged and does not leave the
lease table unchanged — the handler never inspects the current status. -/
theorem C2_counterexample :
    ¬ ((approve_booking_request (some (.admin exAdmin)) 1 dbRejected).1.leaseRequests.map
          (fun r => r.status) =
        dbRejected.leaseRequests.map (fun r => r.status) ∧
      (approve_booking_request (some (.admin exAdmin)) 1 dbRejected).1.leases =
        dbRejected.leases) := by
  decide

/-- C2 amended: the approve and reject handlers do not examine the
request's current status.  Approving any existing request — even one
already `approved` or `rejected` — sets its status to `approved` and
creates one new Lease; rejecting any existing request sets its status to
`rejected` (and changes nothing else). -/
theorem C2_amended (p : Option Principal) (db : DB) (rid : Nat)
    (lr : LeaseRequest) (tu : TenantUser)
    (hadmin : isAdminPrincipal p = true)
    (hfind : db.leaseRequests.find? (fun r => r.id == rid) = some lr)
    (hnp : lr.status ≠ "pending")
    (htu : db.tenantUsers.find? (fun t => t.id == lr.tenant_user_id) = some tu)
    (hunit : (db.units.find? (fun u => u.id == lr.unit_id)).isSome = true) :
    (approve_booking_request p rid db).1.leaseRequests =
      replaceFirst (fun r => r.id == rid)
        (fun r => { r with status := "approved" }) db.leaseRequests ∧
    (approve_booking_request p rid db).1.leases.length = db.leases.length + 1 ∧
    (reject_booking_request p rid db).1 =
      { db with
          leaseRequests :=
            replaceFirst (fun r => r.id == rid)
              (fun r => { r with status := "rejected" }) db.leaseRequests } := by
  obtain ⟨tid, _h1, h2, h3, _⟩ := approve_spec p db rid lr tu hadmin hfind htu hunit
  refine ⟨h3, ?_, ?_⟩
  · rw [h2, List.length_append]
    rfl
  · rw [reject_booking_request, hadmin]
    simp only [Bool.not_true, Bool.false_eq_true, if_false, hfind]

/-- C2 witness: at the concrete rejected request of `dbRejected`, approve
flips the status to `approved` and adds a lease; reject keeps it
`rejected`. -/
theorem C2_amended_witness :
    (approve_booking_request (some (.admin exAdmin)) 1 dbRejected).1.leaseRequests.map
        (fun r => r.status) = ["approved"] ∧
    (approve_booking_request (some (.admin exAdmin)) 1 dbRejected).1.leases.length = 1 ∧
    (reject_booking_request (some (.admin exAdmin)) 1 dbRejected).1.leaseRequests.map
        (fun r => r.status) = ["rejected"] := by
  obtain ⟨h1, h2, h3⟩ :=
    C2_amended (some (.admin exAdmin)) dbRejected 1
      ⟨1, 5, 7, some ⟨2026, 1, 1⟩, some ⟨2026, 12, 31⟩, "", "rejected"⟩
      exTenantAcct rfl (by decide) (by decide) (by decide) (by decide)
  refine ⟨?_, ?_, ?_⟩
  · rw [h1]; decide
  · rw [h2]; decide
  · rw [h3]; decide

/-- C4: for every lease with a start date, the dashboard balance pass
reports `expected = max(0, (currentYear-startYear)*12 +
(currentMonth-startMonth)) * monthly rent`, `paid` = the sum of that
lease's payment amounts, and `balance = expected - paid`. -/
theorem C4_balance (today : Date) (db : DB) (l : Lease) (s : Date)
    (hmem : l ∈ db.leases) (hs : l.start_date = some s) :
    (⟨l.id,
        max 0 ((today.year - s.year) * 12 + (today.month - s.month)) *
          l.monthly_rent.getD 0,
        (leasePayments db l).foldl (fun a pay => a + pay.amount) 0,
        max 0 ((today.year - s.year) * 12 + (today.month - s.month)) *
            l.monthly_rent.getD 0 -
          (leasePayments db l).foldl (fun a pay => a + pay.amount) 0⟩ :
      BalanceEntry) ∈ computeBalances today db := by
  apply List.mem_filterMap.mpr
  exact ⟨l, hmem, by rw [hs]; rfl⟩

/-- C4 witness: the lease of `dbBalance` started exactly 3 calendar months
before `exToday` with monthly rent 5000 and total payments 8000, and the
balance pass reports expected 15000, paid 8000, balance 7000. -/
theorem C4_balance_witness :
    (⟨1, 15000, 8000, 7000⟩ : BalanceEntry) ∈ computeBalances exToday dbBalance := by
  have h := C4_balance exToday dbBalance exLease3mo ⟨2026, 7, 12⟩ (by decide) rfl
  have he : (⟨1, 15000, 8000, 7000⟩ : BalanceEntry) =
      ⟨exLease3mo.id,
        max 0 ((exToday.year - (2026 : Int)) * 12 + (exToday.month - (7 : Int))) *
          exLease3mo.monthly_rent.getD 0,
        (leasePayments dbBalance exLease3mo).foldl (fun a pay => a + pay.amount) 0,
        max 0 ((exToday.year - (2026 : Int)) * 12 + (exToday.month - (7 : Int))) *
            exLease3mo.monthly_rent.getD 0 -
          (leasePayments dbBalance exLease3mo).foldl (fun a pay => a + pay.amount) 0⟩ := by
    decide
  rw [he]
  exact h

/-- C7: at `dbLatest`, whose lease list is iterated highest id first, the
dashboard's tenant-name report for unit 1 comes from the *last-iterated*
lease (id 1, tenant Bob) instead of the highest-id lease (id 2, tenant
Alice) — the `l.id > existing['lease_id']` comparison is dead because
`hasattr(existing, 'id')` is always false for a dict — while the rent
report does come from the highest-id lease. -/
theorem C7_latest_lease_eval :
    unit_tenants dbLatest = [(1, some "Bob")] ∧
    unit_latest_rent dbLatest = [(1, some 700)] ∧
    dbLatest.leases.map (fun l => l.id) = [2, 1] ∧
    (latestLeaseForUnit dbLatest.leases 1).map (fun l => l.id) = some 2 := by
  decide

/-- C6: session restore dispatches by prefix — `tenant_<n>` resolves
against the tenant-account table only, `user_<n>` against the admin table
only; an absent or unrecognized prefix falls back to probing the admin
table then the tenant table by the raw numeric id, and yields no principal
when the id does not parse or neither lookup succeeds. -/
theorem C6_load_user_dispatch (db : DB) :
    (∀ (s : String) (n : Int), pyInt? s = some n →
      load_user ("tenant_" ++ s) db =
        (db.tenantUsers.find? (fun t => ((t.id : Int) == n))).map Principal.tenant) ∧
    (∀ (s : String) (n : Int), pyInt? s = some n →
      load_user ("user_" ++ s) db =
        (db.users.find? (fun u => ((u.id : Int) == n))).map Principal.admin) ∧
    (∀ s : String, splitOnFirstUnderscore s = none →
      load_user s db = load_user_fallback s db) ∧
    (∀ (s pre rest : String), splitOnFirstUnderscore s = some (pre, rest) →
      pre ≠ "user" → pre ≠ "tenant" → load_user s db = load_user_fallback s db) ∧
    (∀ (s : String) (n : Int), pyInt? s = some n →
      load_user_fallback s db =
        match db.users.find? (fun u => ((u.id : Int) == n)) with
        | some u => some (.admin u)
        | none =>
          (db.tenantUsers.find? (fun t => ((t.id : Int) == n))).map Principal.tenant) ∧
    (∀ s : String, pyInt? s = none → load_user_fallback s db = none) := by
  refine ⟨?_, ?_, ?_, ?_, ?_, ?_⟩
  · intro s n hp
    simp only [load_user, split_tenant_prefixed, hp]
    simp
  · intro s n hp
    simp only [load_user, split_user_prefixed, hp]
    simp
  · intro s hsplit
    simp only [load_user, hsplit]
  · intro s pre rest hsplit hp1 hp2
    simp only [load_user, hsplit]
    cases hpi : pyInt? rest with
    | none => simp
    | some uid => simp [hp1, hp2]
  · intro s n hp
    simp only [load_user_fallback, hp]
  · intro s hp
    simp only [load_user_fallback, hp]

/-- C6 witness: in a store whose admin and tenant tables both hold id 7,
`tenant_7` resolves to the tenant account, `user_7` to the admin account,
the raw id `7` probes the admin table first, and an unrecognized prefix
with a non-numeric raw id yields no principal. -/
theorem C6_load_user_dispatch_witness :
    load_user "tenant_7" dbDual = some (.tenant exTenantUser7) ∧
    load_user "user_7" dbDual =
      some (.admin ⟨7, "admin7", generate_password_hash "admin1234"⟩) ∧
    load_user "7" dbDual =
      some (.admin ⟨7, "admin7", generate_password_hash "admin1234"⟩) ∧
    load_user "foo_3" dbDual = none := by
  obtain ⟨h1, h2, h3, h4, h5, h6⟩ := C6_load_user_dispatch dbDual
  refine ⟨?_, ?_, ?_, ?_⟩
  · have h := h1 "7" 7 (by decide)
    have he : "tenant_" ++ "7" = "tenant_7" := by decide
    rw [he] at h
    rw [h]
    decide
  · have h := h2 "7" 7 (by decide)
    have he : "user_" ++ "7" = "user_7" := by decide
    rw [he] at h
    rw [h]
    decide
  · rw [h3 "7" (by decide), h5 "7" 7 (by decide)]
    decide
  · rw [h4 "foo_3" "foo" "3" (by decide) (by decide) (by decide),
      h6 "foo_3" (by decide)]

/-- C9 fails on the code: the admin auto-login compares the submitted
password to the literal `admin1234`, not to the stored hash — with the
stored hash generated from `newpass`, submitting `admin1234` logs in even
though hash verification rejects it, and submitting `newpass` is refused
even though hash verification accepts it. -/
theorem C9_counterexample :
    (admin_autologin "admin1234" dbChangedPw).1.isSome = true ∧
    check_password_hash (generate_password_hash "newpass") "admin1234" = false ∧
    (admin_autologin "newpass" dbChangedPw).1.isSome = false ∧
    check_password_hash (generate_password_hash "newpass") "newpass" = true := by
  decide

/-- C9 amended: admin login, tenant login, and the current-password check
of password change verify the submitted password against the stored salted
hash via the hash verification function; the admin auto-login instead
succeeds exactly when the submitted password is the literal `admin1234`
and the `admin` row exists, regardless of the stored hash. -/
theorem C9_amended (db : DB) (username pw c : String) (u0 : User)
    (t0 : TenantUser) :
    ((login username pw db).1.isSome = true ↔
      ∃ u, db.users.find? (fun x => x.username == username) = some u ∧
        check_password_hash u.password_hash pw = true) ∧
    ((tenant_login username pw db).1.isSome = true ↔
      ∃ t, db.tenantUsers.find? (fun x => x.username == username) = some t ∧
        check_password_hash t.password_hash pw = true) ∧
    change_password_current_ok (.admin u0) c = check_password_hash u0.password_hash c ∧
    change_password_current_ok (.tenant t0) c = check_password_hash t0.password_hash c ∧
    ((admin_autologin pw db).1.isSome = true ↔
      pw = "admin1234" ∧
        (db.users.find? (fun x => x.username == "admin")).isSome = true) := by
  refine ⟨?_, ?_, rfl, rfl, ?_⟩
  · cases hf : db.users.find? (fun x => x.username == username) with
    | none => simp [login, hf]
    | some u =>
      simp only [login, User.check_password]
      by_cases hc : check_password_hash u.password_hash pw = true
      · simp [hf, hc]
      · simp only [Bool.not_eq_true] at hc
        simp [hf, hc]
  · cases hf : db.tenantUsers.find? (fun x => x.username == username) with
    | none => simp [tenant_login, hf]
    | some t =>
      simp only [tenant_login, TenantUser.check_password]
      by_cases hc : check_password_hash t.password_hash pw = true
      · simp [hf, hc]
      · simp only [Bool.not_eq_true] at hc
        simp [hf, hc]
  · by_cases h1 : pw = "admin1234"
    · subst h1
      cases hf : db.users.find? (fun x => x.username == "admin") with
      | none => simp [admin_autologin, hf]
      | some a => simp [admin_autologin, hf]
    · have hne : (pw == "admin1234") = false := by
        simp [h1]
      by_cases h0 : pw = ""
      · subst h0
        simp [admin_autologin]
      · have hne0 : (pw == "") = false := by
          simp [h0]
        simp [admin_autologin, hne, hne0, h1]

/-- C10: the creation and edit handlers for tenants, leases, payments,
maintenance requests and emergency contacts, and the emergency-contact
delete handler, never consult the principal: every caller — including one
with no logged-in principal — gets identical behaviour, the write is
applied, and no authorization error is ever produced. -/
theorem C10_no_auth_checks (p : Option Principal) (db : DB)
    (name phone email desc mstatus uidf : String)
    (tid0 lid0 mid0 cid0 unit_id tenant_id lease_id : Nat)
    (sd ed : Option Date) (rent amount : Int)
    (ht : (db.tenants.find? (fun t => t.id == tid0)).isSome = true)
    (hl : (db.leases.find? (fun l => l.id == lid0)).isSome = true)
    (hm : (db.maintenanceRequests.find? (fun r => r.id == mid0)).isSome = true)
    (hc : (db.emergencyContacts.find? (fun c => c.id == cid0)).isSome = true) :
    (tenant_create p name phone email db = tenant_create none name phone email db ∧
      tenant_edit p tid0 name phone email db = tenant_edit none tid0 name phone email db ∧
      lease_create p unit_id tenant_id sd ed rent db =
        lease_create none unit_id tenant_id sd ed rent db ∧
      lease_edit p lid0 unit_id tenant_id sd ed rent db =
        lease_edit none lid0 unit_id tenant_id sd ed rent db ∧
      payment_create p lease_id amount db = payment_create none lease_id amount db ∧
      maintenance_create p unit_id desc db = maintenance_create none unit_id desc db ∧
      maintenance_edit p mid0 desc mstatus db = maintenance_edit none mid0 desc mstatus db ∧
      emergency_contact_create p uidf name phone db =
        emergency_contact_create none uidf name phone db ∧
      emergency_contact_edit p cid0 uidf name phone db =
        emergency_contact_edit none cid0 uidf name phone db ∧
      emergency_contact_delete p cid0 db = emergency_contact_delete none cid0 db) ∧
    (isAuthzError (tenant_create p name phone email db).2 = false ∧
      isAuthzError (tenant_edit p tid0 name phone email db).2 = false ∧
      isAuthzError (lease_create p unit_id tenant_id sd ed rent db).2 = false ∧
      isAuthzError (lease_edit p lid0 unit_id tenant_id sd ed rent db).2 = false ∧
      isAuthzError (payment_create p lease_id amount db).2 = false ∧
      isAuthzError (maintenance_create p unit_id desc db).2 = false ∧
      isAuthzError (maintenance_edit p mid0 desc mstatus db).2 = false ∧
      isAuthzError (emergency_contact_create p uidf name phone db).2 = false ∧
      isAuthzError (emergency_contact_edit p cid0 uidf name phone db).2 = false ∧
      isAuthzError (emergency_contact_delete p cid0 db).2 = false) ∧
    ((tenant_create p name phone email db).1.tenants =
        db.tenants ++ [⟨freshId (db.tenants.map (fun x => x.id)), name, phone, email⟩] ∧
      (tenant_edit p tid0 name phone email db).1.tenants =
        replaceFirst (fun t => t.id == tid0)
          (fun t => { t with name := name, phone := phone, email := email }) db.tenants ∧
      (lease_create p unit_id tenant_id sd ed rent db).1.leases =
        db.leases ++ [⟨freshId (db.leases.map (fun x => x.id)), unit_id, tenant_id,
          sd, ed, some rent⟩] ∧
      (lease_edit p lid0 unit_id tenant_id sd ed rent db).1.leases =
        replaceFirst (fun l => l.id == lid0)
          (fun l =>
            { l with
                unit_id := unit_id, tenant_id := tenant_id,
                start_date := sd, end_date := ed,
                monthly_rent := some rent })
          db.leases ∧
      (payment_create p lease_id amount db).1.payments =
        db.payments ++ [⟨freshId (db.payments.map (fun x => x.id)), lease_id, amount⟩] ∧
      (maintenance_create p unit_id desc db).1.maintenanceRequests =
        db.maintenanceRequests ++ [⟨freshId (db.maintenanceRequests.map (fun x => x.id)),
          unit_id, desc, "open"⟩] ∧
      (maintenance_edit p mid0 desc mstatus db).1.maintenanceRequests =
        replaceFirst (fun r => r.id == mid0)
          (fun r => { r with description := desc, status := mstatus })
          db.maintenanceRequests ∧
      (emergency_contact_create p uidf name phone db).1.emergencyContacts =
        db.emergencyContacts ++ [⟨freshId (db.emergencyContacts.map (fun x => x.id)),
          uidf, name, phone⟩] ∧
      (emergency_contact_edit p cid0 uidf name phone db).1.emergencyContacts =
        replaceFirst (fun c => c.id == cid0)
          (fun c => { c with unit_identifier := uidf, name := name, phone := phone })
          db.emergencyContacts ∧
      (emergency_contact_delete p cid0 db).1.emergencyContacts =
        db.emergencyContacts.filter (fun c => !(c.id == cid0))) := by
  obtain ⟨t1, ht1⟩ := Option.isSome_iff_exists.mp ht
  obtain ⟨l1, hl1⟩ := Option.isSome_iff_exists.mp hl
  obtain ⟨m1, hm1⟩ := Option.isSome_iff_exists.mp hm
  obtain ⟨c1, hc1⟩ := Option.isSome_iff_exists.mp hc
  refine ⟨⟨rfl, rfl, rfl, rfl, rfl, rfl, rfl, rfl, rfl, rfl⟩,
    ⟨rfl, ?_, rfl, ?_, rfl, rfl, ?_, rfl, ?_, ?_⟩,
    ⟨rfl, ?_, rfl, ?_, rfl, rfl, ?_, rfl, ?_, ?_⟩⟩
  · rw [tenant_edit, ht1]
    rfl
  · rw [lease_edit, hl1]
    rfl
  · rw [maintenance_edit, hm1]
    rfl
  · rw [emergency_contact_edit, hc1]
    rfl
  · rw [emergency_contact_delete, hc1]
    rfl
  · rw [tenant_edit, ht1]
  · rw [lease_edit, hl1]
  · rw [maintenance_edit, hm1]
  · rw [emergency_contact_edit, hc1]
  · rw [emergency_contact_delete, hc1]

/-- C10 witness: at `dbCrud`, a tenant principal and an anonymous caller
get the same outcome from the emergency-contact delete, the delete and a
tenant creation are applied, and no authorization error occurs. -/
theorem C10_no_auth_checks_witness :
    emergency_contact_delete (some (.tenant exTenantAcct)) 1 dbCrud =
      emergency_contact_delete none 1 dbCrud ∧
    (emergency_contact_delete (some (.tenant exTenantAcct)) 1 dbCrud).1.emergencyContacts = [] ∧
    isAuthzError
      (tenant_create (some (.tenant exTenantAcct)) "New Tenant" "0999"
        "new@example.com" dbCrud).2 = false ∧
    (tenant_create (some (.tenant exTenantAcct)) "New Tenant" "0999"
        "new@example.com" dbCrud).1.tenants.map (fun t => t.name) =
      ["Juan Dela Cruz", "New Tenant"] := by
  obtain ⟨hind, hauth, hwr⟩ :=
    C10_no_auth_checks (some (.tenant exTenantAcct)) dbCrud
      "New Tenant" "0999" "new@example.com" "desc" "open" "Room 1"
      1 1 1 1 1 1 1 none none 100 500
      (by decide) (by decide) (by decide) (by decide)
  refine ⟨hind.2.2.2.2.2.2.2.2.2, ?_, hauth.1, ?_⟩
  · rw [hwr.2.2.2.2.2.2.2.2.2]
    decide
  · rw [hwr.1]
    decide

/-- C3: a tenant booking submission fails with a 4xx error and creates no
record when the referenced unit does not exist or is not vacant, or when a
supplied date string does not parse as a calendar date; when every
validation passes, exactly one pending BookingRequest for the requesting
account is created and nothing else changes. -/
theorem C3_book_unit (t : TenantUser) (unit_id_s sd_s ed_s notes : String)
    (db : DB) (uid : Int)
    (hparse : pyInt? unit_id_s = some uid) :
    (((∀ u, db.units.find? (fun u2 => ((u2.id : Int) == uid)) = some u →
          u.status ≠ "vacant") ∨
        (sd_s ≠ "" ∧ fromisoformatDate? sd_s = none) ∨
        (ed_s ≠ "" ∧ fromisoformatDate? ed_s = none)) →
      (book_unit (some (.tenant t)) unit_id_s sd_s ed_s notes db).1 = db ∧
      isClientError (book_unit (some (.tenant t)) unit_id_s sd_s ed_s notes db).2 = true) ∧
    (∀ (sd ed : Date) (u : Unit), uid ≠ 0 → sd_s ≠ "" → ed_s ≠ "" →
      fromisoformatDate? sd_s = some sd → fromisoformatDate? ed_s = some ed →
      db.units.find? (fun u2 => ((u2.id : Int) == uid)) = some u →
      u.status = "vacant" →
      book_unit (some (.tenant t)) unit_id_s sd_s ed_s notes db =
        ({ db with
            leaseRequests := db.leaseRequests ++
              [⟨freshId (db.leaseRequests.map (fun r => r.id)), uid.toNat, t.id,
                some sd, some ed, notes, "pending"⟩] },
          .okJson "Booking request created successfully")) := by
  constructor
  · intro hbad
    have hex : ∃ m, book_unit (some (.tenant t)) unit_id_s sd_s ed_s notes db =
        (db, .badRequest m) := by
      rw [book_unit]
      simp only [isTenantPrincipal, Bool.not_true, Bool.false_eq_true, if_false, hparse]
      rcases hbad with hunit | ⟨hsne, hsd⟩ | ⟨hene, hed⟩
      · cases hS : (if sd_s == "" then (some none : Option (Option Date))
            else (fromisoformatDate? sd_s).map some) with
        | none => exact ⟨_, rfl⟩
        | some sdo =>
          cases hE : (if ed_s == "" then (some none : Option (Option Date))
              else (fromisoformatDate? ed_s).map some) with
          | none => exact ⟨_, rfl⟩
          | some edo =>
            cases hZ : (uid == 0 || sd_s == "" || ed_s == "") with
            | true => exact ⟨_, rfl⟩
            | false =>
              cases hF : db.units.find? (fun u2 => ((u2.id : Int) == uid)) with
              | none => exact ⟨_, rfl⟩
              | some u =>
                have hnv : (u.status == "vacant") = false := by
                  simp [hunit u hF]
                simp only [hnv]
                exact ⟨_, rfl⟩
      · have h1 : (sd_s == "") = false := by
          simp [hsne]
        simp only [h1, Bool.false_eq_true, if_false, hsd, Option.map_none']
        exact ⟨_, rfl⟩
      · have h1 : (ed_s == "") = false := by
          simp [hene]
        simp only [h1, Bool.false_eq_true, if_false, hed, Option.map_none']
        cases hS : (if sd_s == "" then (some none : Option (Option Date))
            else (fromisoformatDate? sd_s).map some) with
        | none => exact ⟨_, rfl⟩
        | some sdo => exact ⟨_, rfl⟩
    obtain ⟨m, hm⟩ := hex
    rw [hm]
    exact ⟨rfl, rfl⟩
  · intro sd ed u hz hsne hene hsd hed hF hvac
    have h1 : (sd_s == "") = false := by
      simp [hsne]
    have h2 : (ed_s == "") = false := by
      simp [hene]
    have hz0 : (uid == 0) = false := by
      simp [hz]
    have hvs : (u.status == "vacant") = true := by
      simp [hvac]
    rw [book_unit]
    simp only [isTenantPrincipal, Bool.not_true, Bool.false_eq_true, if_false, hparse,
      h1, h2, if_false, hsd, hed, Option.map_some', hz0, hvs, Bool.or_self,
      Bool.or_false, Bool.false_or, hF, Bool.not_true, Principal.get_id,
      split_tenant_prefixed, pyInt?_mk_natDecimal, Int.toNat_natCast]

/-- C3 witness: at `dbBook`, a valid submission by tenant account 7 for
vacant unit 5 creates exactly one pending request; a submission against
nonexistent unit 99 and one with the non-date string `2026-02-30` both
leave the store unchanged with a client error. -/
theorem C3_book_unit_witness :
    (book_unit (some (.tenant exTenantAcct)) "5" "2026-01-01" "2026-12-31" ""
        dbBook).1.leaseRequests.map (fun r => (r.status, r.unit_id, r.tenant_user_id)) =
      [("pending", 5, 7)] ∧
    (book_unit (some (.tenant exTenantAcct)) "99" "2026-01-01" "2026-12-31" ""
        dbBook).1 = dbBook ∧
    isClientError
      (book_unit (some (.tenant exTenantAcct)) "99" "2026-01-01" "2026-12-31" ""
        dbBook).2 = true ∧
    (book_unit (some (.tenant exTenantAcct)) "5" "2026-02-30" "2026-12-31" ""
        dbBook).1 = dbBook ∧
    isClientError
      (book_unit (some (.tenant exTenantAcct)) "5" "2026-02-30" "2026-12-31" ""
        dbBook).2 = true := by
  have hgood :=
    (C3_book_unit exTenantAcct "5" "2026-01-01" "2026-12-31" "" dbBook 5 (by decide)).2
      ⟨2026, 1, 1⟩ ⟨2026, 12, 31⟩ ⟨5, "Room 5", "vacant", 1⟩
      (by decide) (by decide) (by decide) (by decide) (by decide) (by decide) rfl
  have hnou :=
    (C3_book_unit exTenantAcct "99" "2026-01-01" "2026-12-31" "" dbBook 99 (by decide)).1
      (Or.inl (by
        intro u hu
        rw [(by decide :
          dbBook.units.find? (fun u2 => ((u2.id : Int) == (99 : Int))) = none)] at hu
        cases hu))
  have hdate :=
    (C3_book_unit exTenantAcct "5" "2026-02-30" "2026-12-31" "" dbBook 5 (by decide)).1
      (Or.inr (Or.inl ⟨by decide, by decide⟩))
  refine ⟨?_, hnou.1, hnou.2, hdate.1, hdate.2⟩
  rw [hgood]
  decide

end LeaseUp
